import Mathlib

/-
Verification of the secure-event-correlator pipeline.

This file shallowly embeds the Python sources under src/:
  - src/engine/models.py       (EventRecord, CorrelationDecision)
  - src/engine/store.py        (RollingEventStore, keyed by (strategy_id, symbol))
  - src/engine/correlator.py   (Correlator.evaluate)
  - src/engine/alert.py        (AlertDeduper)
  - src/gateway/app/security.py (verify_signature, check_replay_window)
  - src/gateway/app/rate_limit.py (FixedWindowRateLimiter)
  - src/gateway/app/idempotency.py (IdempotencyStore)
  - src/gateway/app/main.py    (the /ingest pipeline)

Machine integers are modelled as Int/Nat; Python datetimes are modelled as
integer seconds; Python dicts as association lists; Python exceptions as
Except values.  Parts of the repository that main.py imports but that are
absent from src (HostPolicyEngine, SecurityEventV1, the host-keyed rolling
store) are modelled from the spec and marked as such in their doc comments.
-/

namespace SecCorr

/-- Decision vocabulary shared by the correlation and policy layers
(DecisionType in src/engine/models.py). -/
inductive DecisionType where
  | ALLOW
  | THROTTLE
  | BLOCK
deriving DecidableEq

/-- Internal event representation (EventRecord in src/engine/models.py).
Timestamps are integer seconds. -/
structure EventRecord where
  event_id : String
  source : String
  host : String
  category : String
  action : String
  severity : Int
  timestamp_utc : Int
  received_time_utc : Int
  user : Option String := none
  src_ip : Option String := none
deriving DecidableEq

/-- Context values: the free-form context dict maps keys to numbers or
strings. -/
inductive CtxV where
  | i (n : Int)
  | s (v : String)
deriving DecidableEq

/-- CorrelationDecision of src/engine/models.py; the context dict is an
association list in insertion order. -/
structure CorrelationDecision where
  event_id : String
  host : String
  decision : DecisionType
  reasons : List String
  context : List (String × CtxV)
deriving DecidableEq

/-- PolicyDecision: same shape as CorrelationDecision, policy-layer
vocabulary (src/engine/models.py / spec section 3). -/
structure PolicyDecision where
  event_id : String
  host : String
  decision : DecisionType
  reasons : List String
  context : List (String × CtxV)
deriving DecidableEq

/-- Python truthiness of an optional string: None and the empty string are
falsy. -/
def pyTruthy : Option String → Bool
  | none => false
  | some s => !(s == "")

/-- The Python expression `u or "unknown"` used by the correlator for user
fields. -/
def orUnknown : Option String → String
  | none => "unknown"
  | some s => if s == "" then "unknown" else s

/-- The Python expression `x or ""` used by the alert deduper key. -/
def orEmpty : Option String → String
  | none => ""
  | some s => s

/-- Python-dict style update of an association list: replace the binding of
the key if present, else append it. -/
def assocSet {β : Type} (k : String) (v : β) : List (String × β) → List (String × β)
  | [] => [(k, v)]
  | (k', v') :: rest => if k' == k then (k, v) :: rest else (k', v') :: assocSet k v rest

/-- Python runtime errors surfaced by the shallow embedding. -/
inductive PyErr where
  | attributeError (attr : String)
  | typeError (msg : String)
deriving DecidableEq

/-- The rolling store exactly as shipped in src/engine/store.py: its queues
are keyed by (strategy_id, symbol). -/
structure RollingEventStoreSrc where
  window_seconds : Int
  events : List ((String × String) × List EventRecord)

/-- RollingEventStore.add as shipped (src/engine/store.py line 26): its first
statement reads record.strategy_id and record.symbol, attributes that
EventRecord (src/engine/models.py) does not define, so in Python the call
raises AttributeError before any state is touched. -/
def RollingEventStoreSrc.add (st : RollingEventStoreSrc) (record : EventRecord) :
    Except PyErr RollingEventStoreSrc :=
  .error (.attributeError "strategy_id")

/-- Correlator.evaluate as wired in src/engine/correlator.py lines 51-53: it
first calls self.store.add(record), which with the store shipped in
src/engine/store.py raises AttributeError (see RollingEventStoreSrc.add);
were that repaired, the next line calls store.get_recent(record.host) while
get_recent (store.py line 35) requires the two positional arguments
(strategy_id, symbol), a TypeError.  No decision is ever built. -/
def Correlator.evaluateSrc (st : RollingEventStoreSrc) (record : EventRecord) :
    Except PyErr (CorrelationDecision × RollingEventStoreSrc) := do
  let st' ← st.add record
  let _ := st'
  .error (.typeError "get_recent() missing 1 required positional argument: symbol")

/-- Modelled from the spec: the host-keyed RollingEventStore of section 4.2 is
missing from src; src/engine/store.py ships a (strategy_id, symbol)-keyed
variant that the Correlator cannot call.  Queues are per-host, oldest
first. -/
structure RollingEventStore where
  window_seconds : Int
  events : List (String × List EventRecord)
deriving DecidableEq

/-- Trim head entries older than now minus the window (store.py lines 44-47 /
spec section 4.2). -/
def trimQueue (window now : Int) (q : List EventRecord) : List EventRecord :=
  q.dropWhile (fun e => decide (e.received_time_utc < now - window))

/-- Modelled from the spec: add appends the record to its host's queue and
trims against record.received_time_utc (spec section 4.2; mirrors store.py
lines 25-33 with host as the key). -/
def RollingEventStore.add (st : RollingEventStore) (record : EventRecord) :
    RollingEventStore :=
  let q := ((st.events.lookup record.host).getD []) ++ [record]
  { st with events := assocSet record.host (trimQueue st.window_seconds record.received_time_utc q) st.events }

/-- Modelled from the spec: get_recent trims the host's queue against the wall
clock and returns a snapshot (spec section 4.2; mirrors store.py lines
35-42 with host as the key). -/
def RollingEventStore.getRecent (st : RollingEventStore) (host : String) (wallNow : Int) :
    List EventRecord × RollingEventStore :=
  match st.events.lookup host with
  | none => ([], st)
  | some q =>
    let q' := trimQueue st.window_seconds wallNow q
    (q', { st with events := assocSet host q' st.events })

/-- Correlator tuning knobs with their defaults (src/engine/correlator.py
lines 20-49). -/
structure CorrelatorConfig where
  store_window_seconds : Int := 900
  storm_window_seconds : Int := 30
  storm_threshold : Int := 50
  brute_window_seconds : Int := 60
  brute_threshold : Int := 8
  spray_window_seconds : Int := 120
  spray_unique_users_threshold : Int := 5
  spray_fail_threshold : Int := 8
  success_window_seconds : Int := 600
  success_prior_fail_threshold : Int := 6
deriving DecidableEq

/-- Rule 1 counter: events within the storm window (correlator.py lines
60-61). -/
def stormCount (cfg : CorrelatorConfig) (now : Int) (recent : List EventRecord) : Int :=
  ((recent.filter (fun e => decide (now - cfg.storm_window_seconds ≤ e.received_time_utc))).length : Int)

/-- Rule 2 counter: auth/login_failed events for the same user within the
brute window (correlator.py lines 68-77). -/
def bruteFailCount (cfg : CorrelatorConfig) (now : Int) (user : String)
    (recent : List EventRecord) : Int :=
  ((recent.filter (fun e =>
      decide (now - cfg.brute_window_seconds ≤ e.received_time_utc) &&
      (e.category == "auth") && (e.action == "login_failed") &&
      (orUnknown e.user == user))).length : Int)

/-- Rule 3 event set: auth/login_failed events with the given src_ip within
the spray window (correlator.py lines 85-94). -/
def sprayFailEvents (cfg : CorrelatorConfig) (now : Int) (srcIp : String)
    (recent : List EventRecord) : List EventRecord :=
  recent.filter (fun e =>
    decide (now - cfg.spray_window_seconds ≤ e.received_time_utc) &&
    (e.category == "auth") && (e.action == "login_failed") &&
    (e.src_ip == some srcIp))

/-- Rule 3 counters (correlator.py lines 95-97). -/
def sprayFailCount (cfg : CorrelatorConfig) (now : Int) (srcIp : String)
    (recent : List EventRecord) : Int :=
  ((sprayFailEvents cfg now srcIp recent).length : Int)

/-- Distinct users among the spray fail events, a Python set size
(correlator.py lines 96-97). -/
def sprayUniqueUsers (cfg : CorrelatorConfig) (now : Int) (srcIp : String)
    (recent : List EventRecord) : Int :=
  ((((sprayFailEvents cfg now srcIp recent).map (fun e => orUnknown e.user)).dedup).length : Int)

/-- Rule 4 counter: prior auth/login_failed events for the same user within
the success window (correlator.py lines 109-117). -/
def successPriorFails (cfg : CorrelatorConfig) (now : Int) (user : String)
    (recent : List EventRecord) : Int :=
  ((recent.filter (fun e =>
      decide (now - cfg.success_window_seconds ≤ e.received_time_utc) &&
      (e.category == "auth") && (e.action == "login_failed") &&
      (orUnknown e.user == user))).length : Int)

/-- Whether rule 1 fires (correlator.py line 64). -/
def stormFired (cfg : CorrelatorConfig) (record : EventRecord) (recent : List EventRecord) : Bool :=
  decide (cfg.storm_threshold < stormCount cfg record.received_time_utc recent)

/-- Whether rule 2 fires (correlator.py line 81). -/
def bruteFired (cfg : CorrelatorConfig) (record : EventRecord) (recent : List EventRecord) : Bool :=
  decide (cfg.brute_threshold ≤ bruteFailCount cfg record.received_time_utc (orUnknown record.user) recent)

/-- Whether rule 3 fires: only reachable when the record's src_ip is truthy
(correlator.py lines 87, 104). -/
def sprayFired (cfg : CorrelatorConfig) (record : EventRecord) (recent : List EventRecord) : Bool :=
  pyTruthy record.src_ip &&
  decide (cfg.spray_fail_threshold ≤ sprayFailCount cfg record.received_time_utc (orEmpty record.src_ip) recent) &&
  decide (cfg.spray_unique_users_threshold ≤ sprayUniqueUsers cfg record.received_time_utc (orEmpty record.src_ip) recent)

/-- Whether rule 4 fires: only reachable when the current event is an
auth/login_success (correlator.py lines 108, 121). -/
def successFired (cfg : CorrelatorConfig) (record : EventRecord) (recent : List EventRecord) : Bool :=
  (record.category == "auth") && (record.action == "login_success") &&
  decide (cfg.success_prior_fail_threshold ≤ successPriorFails cfg record.received_time_utc (orUnknown record.user) recent)

/-- The reasons list assembled in rule order from the four rule outcomes. -/
def mkReasons (b1 b2 b3 b4 : Bool) : List String :=
  (if b1 then ["ingest_storm"] else []) ++
  (if b2 then ["brute_force_suspected"] else []) ++
  (if b3 then ["password_spray_suspected"] else []) ++
  (if b4 then ["success_after_failures"] else [])

/-- Reasons accumulated by Correlator.evaluate (correlator.py lines
56-122). -/
def correlateReasons (cfg : CorrelatorConfig) (record : EventRecord)
    (recent : List EventRecord) : List String :=
  mkReasons (stormFired cfg record recent) (bruteFired cfg record recent)
    (sprayFired cfg record recent) (successFired cfg record recent)

/-- The decision policy on the final reason set (correlator.py lines
124-129). -/
def decisionPolicy (reasons : List String) : DecisionType :=
  if reasons.contains "ingest_storm" &&
      (reasons.contains "brute_force_suspected" || reasons.contains "password_spray_suspected") then
    .BLOCK
  else if !reasons.isEmpty then
    .THROTTLE
  else
    .ALLOW

/-- The context dict assembled by Correlator.evaluate, in insertion order
(correlator.py lines 57-131): the storm and brute counters are written
unconditionally, the spray counters only under the src_ip truthiness guard,
the success counters only for auth/login_success events. -/
def correlateContext (cfg : CorrelatorConfig) (record : EventRecord)
    (recent : List EventRecord) : List (String × CtxV) :=
  let now := record.received_time_utc
  let user := orUnknown record.user
  [("storm_count", CtxV.i (stormCount cfg now recent)),
   ("storm_window_seconds", CtxV.i cfg.storm_window_seconds),
   ("brute_user", CtxV.s user),
   ("login_failed_count", CtxV.i (bruteFailCount cfg now user recent)),
   ("brute_window_seconds", CtxV.i cfg.brute_window_seconds)] ++
  (match record.src_ip with
   | none => []
   | some s =>
     if s == "" then [] else
     [("spray_src_ip", CtxV.s s),
      ("spray_fail_count", CtxV.i (sprayFailCount cfg now s recent)),
      ("spray_unique_users", CtxV.i (sprayUniqueUsers cfg now s recent)),
      ("spray_window_seconds", CtxV.i cfg.spray_window_seconds)]) ++
  (if (record.category == "auth") && (record.action == "login_success") then
     [("success_user", CtxV.s user),
      ("success_prior_fail_count", CtxV.i (successPriorFails cfg now user recent)),
      ("success_window_seconds", CtxV.i cfg.success_window_seconds)]
   else []) ++
  [("recent_events_kept", CtxV.i (recent.length : Int))]

/-- The pure body of Correlator.evaluate given the recent history
(correlator.py lines 54-139). -/
def correlateCore (cfg : CorrelatorConfig) (record : EventRecord)
    (recent : List EventRecord) : CorrelationDecision :=
  { event_id := record.event_id
    host := record.host
    decision := decisionPolicy (correlateReasons cfg record recent)
    reasons := correlateReasons cfg record recent
    context := correlateContext cfg record recent }

/-- Correlator.evaluate (correlator.py lines 51-139) over the host-keyed
store modelled from the spec: add the record, read back the recent history
(get_recent trims against the wall clock), evaluate the rules. -/
def Correlator.evaluate (cfg : CorrelatorConfig) (store : RollingEventStore)
    (record : EventRecord) (wallNow : Int) : CorrelationDecision × RollingEventStore :=
  let store1 := store.add record
  let rs := store1.getRecent record.host wallNow
  (correlateCore cfg record rs.1, rs.2)

/-- Per-host policy state (spec sections 3 and 4.4; persisted shape matches
host_policy in src/engine/persistence/sqlite_store.py). -/
structure HostState where
  cooldown_until_utc : Option Int := none
  quarantine : Bool := false
deriving DecidableEq

/-- Host policy engine configuration (spec section 4.4; defaults per
src/gateway/app/main.py lines 44-48). -/
structure PolicyConfig where
  severity_floor : Int := 0
  cooldown_seconds : Int := 120
  quarantine_on : List String := ["brute_force_suspected"]
deriving DecidableEq

/-- Helper: whether a cooldown instant is set and still in the future. -/
def cooldownActive (st : HostState) (now : Int) : Bool :=
  match st.cooldown_until_utc with
  | none => false
  | some t => decide (now < t)

/-- Modelled from the spec: HostPolicyEngine.evaluate of section 4.4 is
imported by src/gateway/app/main.py line 24 but missing from src
(src/engine/policy.py ships an unrelated trading RiskPolicyEngine).  Steps
in the spec's order: severity floor, quarantine, cooldown, then branch on
the correlation decision.  Returns the policy decision and the updated host
state. -/
def HostPolicyEngine.evaluate (cfg : PolicyConfig) (st : HostState)
    (record : EventRecord) (corr : CorrelationDecision) (now : Int) :
    PolicyDecision × HostState :=
  let mk := fun (d : DecisionType) (rs : List String) =>
    ({ event_id := record.event_id, host := record.host, decision := d,
       reasons := rs, context := [] } : PolicyDecision)
  if record.severity < cfg.severity_floor then
    (mk .THROTTLE ["below_severity_floor"], st)
  else if st.quarantine then
    (mk .BLOCK ["host_quarantined"], st)
  else if cooldownActive st now then
    (mk .BLOCK ["cooldown_active"], st)
  else
    match corr.decision with
    | .BLOCK =>
      if corr.reasons.any (fun r => cfg.quarantine_on.contains r) then
        (mk .BLOCK ["quarantine_activated"], { st with quarantine := true })
      else
        (mk .BLOCK ["correlation_block"],
         { st with cooldown_until_utc := some (now + cfg.cooldown_seconds) })
    | .THROTTLE =>
      (mk .THROTTLE ["suspicious_cooldown_set"],
       { st with cooldown_until_utc := some (now + cfg.cooldown_seconds) })
    | .ALLOW => (mk .ALLOW ["ok"], st)

/-- verify_signature (src/gateway/app/security.py lines 26-42).  The HMAC
hexdigest itself is a library call; the caller passes the computed digest
in.  Comparison of equal-length hex strings by compare_digest is string
equality. -/
def verifySignature (computed : String) (headerValue : Option String) : Bool × String :=
  match headerValue with
  | none => (false, "missing_signature")
  | some h =>
    if h == "" then (false, "missing_signature")
    else if !(h.startsWith "sha256=") then (false, "bad_signature_format")
    else if (h.drop 7).trim == computed then (true, "ok")
    else (false, "signature_mismatch")

/-- check_replay_window (src/gateway/app/security.py lines 49-57): reject
when the absolute delta between the wall clock and the producer timestamp
exceeds the window strictly. -/
def checkReplayWindow (now sent_time_utc window_seconds : Int) : Bool × String :=
  if window_seconds < |now - sent_time_utc| then (false, "replay_window_exceeded")
  else (true, "ok")

/-- Fixed-window counter state (src/gateway/app/rate_limit.py lines 7-10). -/
structure WindowCounter where
  window_start : Int
  count : Nat
deriving DecidableEq

/-- Fixed-window rate limiter (src/gateway/app/rate_limit.py lines 13-20). -/
structure FixedWindowRateLimiter where
  limit : Nat
  window_seconds : Int
  counters : List (String × WindowCounter) := []
deriving DecidableEq

/-- FixedWindowRateLimiter.allow (src/gateway/app/rate_limit.py lines 22-34):
fresh or expired window resets the counter to 1 and allows; a full counter
rejects with rate_limited; otherwise increment and allow. -/
def FixedWindowRateLimiter.allow (rl : FixedWindowRateLimiter) (key : String)
    (now : Int) : (Bool × String) × FixedWindowRateLimiter :=
  match rl.counters.lookup key with
  | none =>
    ((true, "ok"), { rl with counters := assocSet key ⟨now, 1⟩ rl.counters })
  | some c =>
    if rl.window_seconds ≤ now - c.window_start then
      ((true, "ok"), { rl with counters := assocSet key ⟨now, 1⟩ rl.counters })
    else if rl.limit ≤ c.count then
      ((false, "rate_limited"), rl)
    else
      ((true, "ok"), { rl with counters := assocSet key ⟨c.window_start, c.count + 1⟩ rl.counters })

/-- Alert deduper state (src/engine/alert.py lines 35-43). -/
structure AlertDeduper where
  ttl_seconds : Int
  last_emit : List (String × Int) := []
deriving DecidableEq

/-- AlertDeduper._key (src/engine/alert.py lines 45-46): joins the four
components with the pipe character, None fields becoming empty strings. -/
def dedupeKey (rule_id host : String) (user src_ip : Option String) : String :=
  rule_id ++ "|" ++ host ++ "|" ++ orEmpty user ++ "|" ++ orEmpty src_ip

/-- AlertDeduper.should_emit (src/engine/alert.py lines 48-58): emit and
record now when the key was never seen or the TTL has elapsed since the
last emit; otherwise suppress and leave the mapping unchanged. -/
def AlertDeduper.shouldEmit (d : AlertDeduper) (rule_id host : String)
    (user src_ip : Option String) (now : Int) : Bool × AlertDeduper :=
  let k := dedupeKey rule_id host user src_ip
  match d.last_emit.lookup k with
  | none => (true, { d with last_emit := assocSet k now d.last_emit })
  | some last =>
    if d.ttl_seconds ≤ now - last then
      (true, { d with last_emit := assocSet k now d.last_emit })
    else
      (false, d)

/-- Idempotency store (src/gateway/app/idempotency.py lines 11-15): an
in-memory map from event_id to first-seen instant, optionally backed by the
sqlite idempotency table (modelled as an association list as well). -/
structure IdempotencyStore where
  ttl_seconds : Int
  seenMem : List (String × Int) := []
  sqliteIdempo : Option (List (String × Int)) := none
deriving DecidableEq

/-- IdempotencyStore.seen (idempotency.py lines 17-22): defer to sqlite when
configured; otherwise garbage-collect expired entries then test membership.
Returns the answer and the post-gc store. -/
def IdempotencyStore.seen (s : IdempotencyStore) (event_id : String) (now : Int) :
    Bool × IdempotencyStore :=
  match s.sqliteIdempo with
  | some tbl => ((tbl.lookup event_id).isSome, s)
  | none =>
    let mem := s.seenMem.filter (fun kv => decide (now - s.ttl_seconds ≤ kv.2))
    ((mem.lookup event_id).isSome, { s with seenMem := mem })

/-- IdempotencyStore.mark (idempotency.py lines 24-29); the sqlite path is
INSERT OR IGNORE (sqlite_store.py lines 66-72). -/
def IdempotencyStore.mark (s : IdempotencyStore) (event_id : String) (now : Int) :
    IdempotencyStore :=
  match s.sqliteIdempo with
  | some tbl =>
    let tbl' := if (tbl.lookup event_id).isSome then tbl else tbl ++ [(event_id, now)]
    { s with sqliteIdempo := some tbl' }
  | none => { s with seenMem := assocSet event_id now s.seenMem }

/-- SQLiteStore.idempo_gc (sqlite_store.py lines 74-82): delete idempotency
rows older than the TTL. -/
def sqliteIdempoGc (ttl now : Int) : Option (List (String × Int)) → Option (List (String × Int))
  | none => none
  | some tbl => some (tbl.filter (fun kv => decide (now - ttl ≤ kv.2)))

/-- Modelled from the spec: SecurityEventV1 (spec section 6) is imported by
src/gateway/app/main.py line 12 but missing from src
(src/gateway/app/models.py ships an unrelated TradingViewSignalEvent
schema).  Only the fields the pipeline reads downstream are modelled; JSON
parsing and pydantic validation are external collaborators (spec section
1). -/
structure SecurityEventV1 where
  event_id : String
  source : String
  host : String
  category : String
  action : String
  severity : Int
  timestamp_utc : Int
  user : Option String := none
  src_ip : Option String := none
deriving DecidableEq

/-- Alert record (src/engine/alert.py lines 11-32).  alert_id (a fresh uuid)
and created_time_utc (wall-clock ISO string) come from external library
calls and are not inspected anywhere; they are omitted.  confidence is an
exact rational. -/
structure Alert where
  rule_id : String
  host : String
  severity : Int
  confidence : ℚ
  user : Option String := none
  src_ip : Option String := none
  reasons : List String := []
  context : List (String × CtxV) := []
deriving DecidableEq

/-- The fixed reason-to-rule mapping of src/gateway/app/main.py lines
228-233. -/
def reasonToRule : String → Option (String × Int × ℚ)
  | "brute_force_suspected" => some ("BRUTE_FORCE_V1", 7, 75 / 100)
  | "password_spray_suspected" => some ("PASSWORD_SPRAY_V1", 8, 80 / 100)
  | "success_after_failures" => some ("SUCCESS_AFTER_FAILURES_V1", 8, 70 / 100)
  | "ingest_storm" => some ("INGEST_STORM_V1", 5, 60 / 100)
  | _ => none

/-- An audit record is a flat JSON object; modelled as key/value pairs in
write order (src/gateway/app/audit.py). -/
def AuditRecord := List (String × String)
deriving instance DecidableEq for AuditRecord

/-- The gateway_reject audit payload of src/gateway/app/main.py (each reject
site writes type, path, client_ip, verification_status, verification_reason,
body_sha256, plus whatever event fields are already known). -/
def auditReject (client_ip reason body_hash : String)
    (evFields : List (String × String)) : AuditRecord :=
  [("type", "gateway_reject"), ("path", "/ingest"), ("client_ip", client_ip),
   ("verification_status", "fail"), ("verification_reason", reason),
   ("body_sha256", body_hash)] ++ evFields

/-- The alert_emitted audit payload (main.py lines 251-259), restricted to
the string-valued fields. -/
def auditAlertEmitted (a : Alert) : AuditRecord :=
  [("type", "alert_emitted"), ("rule_id", a.rule_id), ("host", a.host)]

/-- The per-reason alert emission loop of main.py lines 235-259: for each
correlation reason with a mapped rule, consult the deduper and on admission
append one alert to the sink and one alert_emitted audit record. -/
def processAlerts (record : EventRecord) (ctx : List (String × CtxV)) (now : Int) :
    List String → AlertDeduper → AlertDeduper × List Alert × List AuditRecord
  | [], d => (d, [], [])
  | r :: rest, d =>
    match reasonToRule r with
    | none => processAlerts record ctx now rest d
    | some (rule_id, sev, conf) =>
      let e := d.shouldEmit rule_id record.host record.user record.src_ip now
      if e.1 then
        let a : Alert :=
          { rule_id := rule_id, host := record.host, severity := sev,
            confidence := conf, user := record.user, src_ip := record.src_ip,
            reasons := [r], context := ctx }
        let rec' := processAlerts record ctx now rest e.2
        (rec'.1, a :: rec'.2.1, auditAlertEmitted a :: rec'.2.2)
      else
        processAlerts record ctx now rest d

/-- Gateway configuration (main.py lines 33-57 and security.py). -/
structure GatewayConfig where
  shared_secret : String
  replay_window_seconds : Int := 120
  rate_limit_per_min : Nat := 300
  idempo_ttl_seconds : Int := 604800
  corr : CorrelatorConfig := {}
  policy : PolicyConfig := {}
deriving DecidableEq

/-- The mutable singletons of src/gateway/app/main.py lines 39-57, gathered
into one state record: idempotency store, correlator store, host policy
map, rate limiter, alert deduper, audit log and alert sink file. -/
structure GatewayState where
  idempo : IdempotencyStore
  corrStore : RollingEventStore
  hostPolicy : List (String × HostState)
  rateLimiter : FixedWindowRateLimiter
  deduper : AlertDeduper
  auditLog : List AuditRecord
  alerts : List Alert
deriving DecidableEq

/-- One inbound /ingest request: the raw body, the signature header, the
already-parsed schema outcome (parsing is external glue, spec section 1)
and the wall clock at arrival. -/
structure IngestRequest where
  client_ip : String
  raw_body : String
  sig_header : Option String
  parsed : Except String SecurityEventV1
  now : Int

/-- The HTTP outcome of /ingest: either the 200 acceptance payload or an
HTTPException with status and detail. -/
inductive IngestResponse where
  | accepted (event_id : String) (corr : CorrelationDecision) (policy : PolicyDecision)
  | httpError (status : Nat) (detail : String)
deriving DecidableEq

/-- Python falsiness of the signature header (main.py line 96: if not
sig_header). -/
def sigHeaderFalsy : Option String → Bool
  | none => true
  | some s => s == ""

/-- The event fields appended to reject audits once the event is parsed
(main.py lines 162-164 and analogous). -/
def eventAuditFields (ev : SecurityEventV1) : List (String × String) :=
  [("event_id", ev.event_id), ("host", ev.host), ("source", ev.source)]

/-- The /ingest handler of src/gateway/app/main.py lines 88-311, step by
step: signature header presence, shared secret, HMAC verification,
parse/schema, replay window, idempotency, rate limit, idempotency mark and
gc, normalisation, correlation, policy, deduped alert emission, audit
writes.  hmacHex and shaHex stand for the external hashlib/hmac digests;
req.now stands for every datetime.now() read during the request. -/
def ingest (cfg : GatewayConfig) (hmacHex : String → String → String)
    (shaHex : String → String) (st : GatewayState) (req : IngestRequest) :
    IngestResponse × GatewayState :=
  let body_hash := shaHex req.raw_body
  if sigHeaderFalsy req.sig_header then
    (.httpError 401 "missing_signature",
     { st with auditLog := st.auditLog ++ [auditReject req.client_ip "missing_signature" body_hash []] })
  else if cfg.shared_secret == "" then
    (.httpError 500 "ARES_SHARED_SECRET is not set", st)
  else
    let vr := verifySignature (hmacHex cfg.shared_secret req.raw_body) req.sig_header
    if !vr.1 then
      (.httpError 401 vr.2,
       { st with auditLog := st.auditLog ++ [auditReject req.client_ip vr.2 body_hash []] })
    else
      match req.parsed with
      | .error preason =>
        (.httpError 400 preason,
         { st with auditLog := st.auditLog ++ [auditReject req.client_ip preason body_hash []] })
      | .ok event =>
        let rp := checkReplayWindow req.now event.timestamp_utc cfg.replay_window_seconds
        if !rp.1 then
          (.httpError 400 rp.2,
           { st with auditLog := st.auditLog ++ [auditReject req.client_ip rp.2 body_hash (eventAuditFields event)] })
        else
          let sn := st.idempo.seen event.event_id req.now
          if sn.1 then
            (.httpError 409 "duplicate_event_id",
             { st with idempo := sn.2,
                       auditLog := st.auditLog ++ [auditReject req.client_ip "duplicate_event_id" body_hash (eventAuditFields event)] })
          else
            let rl := st.rateLimiter.allow event.host req.now
            if !rl.1.1 then
              (.httpError 429 rl.1.2,
               { st with idempo := sn.2, rateLimiter := rl.2,
                         auditLog := st.auditLog ++ [auditReject req.client_ip rl.1.2 body_hash (eventAuditFields event)] })
            else
              let idem1 := sn.2.mark event.event_id req.now
              let idem2 := { idem1 with sqliteIdempo := sqliteIdempoGc cfg.idempo_ttl_seconds req.now idem1.sqliteIdempo }
              let record : EventRecord :=
                { event_id := event.event_id, source := event.source,
                  host := event.host, category := event.category,
                  action := event.action, severity := event.severity,
                  timestamp_utc := event.timestamp_utc,
                  received_time_utc := req.now,
                  user := event.user, src_ip := event.src_ip }
              let ce := Correlator.evaluate cfg.corr st.corrStore record req.now
              let hstate := (st.hostPolicy.lookup record.host).getD {}
              let pe := HostPolicyEngine.evaluate cfg.policy hstate record ce.1 req.now
              let al := processAlerts record ce.1.context req.now ce.1.reasons st.deduper
              let acceptRec : AuditRecord :=
                [("type", "gateway_accept"), ("path", "/ingest"),
                 ("client_ip", req.client_ip), ("verification_status", "pass"),
                 ("verification_reason", "ok"), ("body_sha256", body_hash)] ++
                eventAuditFields event
              let corrRec : AuditRecord :=
                [("type", "correlation_decision"), ("event_id", ce.1.event_id),
                 ("host", ce.1.host)]
              let polRec : AuditRecord :=
                [("type", "policy_decision"), ("event_id", pe.1.event_id),
                 ("host", pe.1.host)]
              (.accepted event.event_id ce.1 pe.1,
               { idempo := idem2,
                 corrStore := ce.2,
                 hostPolicy := assocSet record.host pe.2 st.hostPolicy,
                 rateLimiter := rl.2,
                 deduper := al.1,
                 auditLog := st.auditLog ++ al.2.2 ++ [acceptRec, corrRec, polRec],
                 alerts := st.alerts ++ al.2.1 })

/-- Run a sequence of allow calls for one key at the given instants,
collecting the results. -/
def runCalls (key : String) : FixedWindowRateLimiter → List Int → List (Bool × String) × FixedWindowRateLimiter
  | rl, [] => ([], rl)
  | rl, t :: ts =>
    let r := rl.allow key t
    let rest := runCalls key r.2 ts
    (r.1 :: rest.1, rest.2)

/-- Run a sequence of should_emit calls for one dedupe key at the given
instants, collecting the results. -/
def runEmits (rule_id host : String) (user src_ip : Option String) :
    AlertDeduper → List Int → List Bool × AlertDeduper
  | d, [] => ([], d)
  | d, t :: ts =>
    let r := d.shouldEmit rule_id host user src_ip t
    let rest := runEmits rule_id host user src_ip r.2 ts
    (r.1 :: rest.1, rest.2)

/-- A sample severity-0 non-auth event with no src_ip. -/
def recSev0 : EventRecord :=
  { event_id := "e1", source := "s1", host := "h1", category := "proc",
    action := "start", severity := 0, timestamp_utc := 0, received_time_utc := 0 }

/-- A sample severity-5 event. -/
def recSev5 : EventRecord :=
  { event_id := "e2", source := "s1", host := "h1", category := "auth",
    action := "login_failed", severity := 5, timestamp_utc := 0, received_time_utc := 0 }

/-- A sample ALLOW correlation decision. -/
def corrAllow : CorrelationDecision :=
  { event_id := "e1", host := "h1", decision := .ALLOW, reasons := [], context := [] }

/-- An empty gateway state with the default configuration. -/
def emptyState : GatewayState :=
  { idempo := { ttl_seconds := 604800 },
    corrStore := { window_seconds := 900, events := [] },
    hostPolicy := [],
    rateLimiter := { limit := 300, window_seconds := 60 },
    deduper := { ttl_seconds := 300 },
    auditLog := [], alerts := [] }

section Lemmas

/-- Looking up the key just set by assocSet returns the new value. -/
theorem lookup_assocSet_self {β : Type} (k : String) (v : β) (m : List (String × β)) :
    (assocSet k v m).lookup k = some v := by
  induction m with
  | nil => simp [assocSet, List.lookup]
  | cons kv rest ih =>
    obtain ⟨k', v'⟩ := kv
    by_cases h : (k' == k) = true
    · simp [assocSet, h, List.lookup]
    · have hne : k' ≠ k := fun hk => h (by simp [hk])
      have h1 : (k' == k) = false := beq_eq_false_iff_ne.mpr hne
      have h2 : (k == k') = false := beq_eq_false_iff_ne.mpr (Ne.symm hne)
      simp [assocSet, h1, h2, List.lookup, ih]

/-- Lookup over an append skips a prefix in which the key is absent. -/
theorem lookup_append_of_none {β : Type} (k : String) {l1 : List (String × β)}
    (l2 : List (String × β)) (h1 : List.lookup k l1 = none) :
    List.lookup k (l1 ++ l2) = List.lookup k l2 := by
  induction l1 with
  | nil => simp
  | cons kv rest ih =>
    obtain ⟨k', v'⟩ := kv
    cases hk : (k == k') with
    | true =>
      have hsome : List.lookup k ((k', v') :: rest) = some v' := by
        simp [List.lookup, hk]
      rw [hsome] at h1
      cases h1
    | false =>
      simp only [List.lookup, hk] at h1
      simpa only [List.cons_append, List.lookup, hk] using ih h1

end Lemmas

/-- C1: the spec promises the correlation and policy layers never raise; in
the shipped code Correlator.evaluate raises AttributeError on every record,
because RollingEventStore.add reads record.strategy_id, a field EventRecord
does not have.  The evaluation errors for every store state and every
record. -/
theorem correlator_evaluate_always_raises (st : RollingEventStoreSrc) (record : EventRecord) :
    Correlator.evaluateSrc st record = .error (.attributeError "strategy_id") := rfl

/-- C5 counterexample: at a clock delta of exactly the configured window
(120 s) the replay check accepts the event, while the claim says it is
rejected with replay_window_exceeded. -/
theorem replay_boundary_accepts : checkReplayWindow 120 0 120 = (true, "ok") := by decide

/-- C5 (amended): the replay check rejects exactly when the absolute delta
strictly exceeds the window, with reason replay_window_exceeded; at a delta
of exactly the window the event is accepted. -/
theorem replay_window_strict (now sent w : Int) :
    ((checkReplayWindow now sent w).1 = false ↔ w < |now - sent|) ∧
    (|now - sent| = w → checkReplayWindow now sent w = (true, "ok")) ∧
    ((checkReplayWindow now sent w).1 = false →
      (checkReplayWindow now sent w).2 = "replay_window_exceeded") := by
  unfold checkReplayWindow
  split_ifs with h
  · refine ⟨by simp [h], fun he => absurd he (by omega), fun _ => rfl⟩
  · exact ⟨by simpa using h, fun _ => rfl, by simp⟩

/-- Witness for replay_window_strict at concrete inputs: delta 121 over a
120 s window is rejected, delta exactly 120 is accepted. -/
theorem replay_window_strict_witness :
    (checkReplayWindow 121 0 120).1 = false ∧ checkReplayWindow 120 0 120 = (true, "ok") :=
  ⟨(replay_window_strict 121 0 120).1.mpr (by decide),
   (replay_window_strict 120 0 120).2.1 (by decide)⟩

/-- C10: the deduper key function is not injective: user None and user empty
string are distinct tuples mapping to the same key, so an emit recorded for
the first suppresses the second within the TTL. -/
theorem dedupe_key_not_injective :
    dedupeKey "BRUTE_FORCE_V1" "h1" none none = dedupeKey "BRUTE_FORCE_V1" "h1" (some "") none ∧
    (none : Option String) ≠ some "" ∧
    ((AlertDeduper.shouldEmit
        ((AlertDeduper.shouldEmit ⟨300, []⟩ "BRUTE_FORCE_V1" "h1" none none 0).2)
        "BRUTE_FORCE_V1" "h1" (some "") none 10).1 = false) := by decide

/-- C2 counterexample: the spec's own evaluation order checks the severity
floor before quarantine, so with severity_floor 1 a severity-0 event for a
quarantined host is answered THROTTLE / below_severity_floor rather than
BLOCK / host_quarantined. -/
theorem quarantined_host_below_floor_throttles :
    (({ cooldown_until_utc := none, quarantine := true } : HostState).quarantine = true) ∧
    (HostPolicyEngine.evaluate { severity_floor := 1, cooldown_seconds := 120, quarantine_on := ["brute_force_suspected"] }
        { cooldown_until_utc := none, quarantine := true } recSev0 corrAllow 0).1.decision = .THROTTLE ∧
    (HostPolicyEngine.evaluate { severity_floor := 1, cooldown_seconds := 120, quarantine_on := ["brute_force_suspected"] }
        { cooldown_until_utc := none, quarantine := true } recSev0 corrAllow 0).1.reasons = ["below_severity_floor"] := by
  decide

/-- C2 (amended): once quarantine is set, every policy decision for an event
at or above the severity floor is BLOCK / host_quarantined, and no
transition ever resets the quarantine flag (it is sticky until externally
cleared). -/
theorem quarantine_sticky (cfg : PolicyConfig) (st : HostState) (record : EventRecord)
    (corr : CorrelationDecision) (now : Int) (hq : st.quarantine = true) :
    (cfg.severity_floor ≤ record.severity →
      (HostPolicyEngine.evaluate cfg st record corr now).1.decision = .BLOCK ∧
      (HostPolicyEngine.evaluate cfg st record corr now).1.reasons = ["host_quarantined"]) ∧
    (HostPolicyEngine.evaluate cfg st record corr now).2.quarantine = true := by
  constructor
  · intro hs
    have h1 : ¬(record.severity < cfg.severity_floor) := not_lt.mpr hs
    simp [HostPolicyEngine.evaluate, h1, hq]
  · by_cases h : record.severity < cfg.severity_floor
    · simp [HostPolicyEngine.evaluate, h, hq]
    · simp [HostPolicyEngine.evaluate, h, hq]

/-- Witness for quarantine_sticky: a quarantined host and a severity-5 event
with floor 0. -/
theorem quarantine_sticky_witness :
    (HostPolicyEngine.evaluate { severity_floor := 0, cooldown_seconds := 120, quarantine_on := ["brute_force_suspected"] }
        { cooldown_until_utc := none, quarantine := true } recSev5 corrAllow 0).1.decision = .BLOCK ∧
    (HostPolicyEngine.evaluate { severity_floor := 0, cooldown_seconds := 120, quarantine_on := ["brute_force_suspected"] }
        { cooldown_until_utc := none, quarantine := true } recSev5 corrAllow 0).1.reasons = ["host_quarantined"] ∧
    (HostPolicyEngine.evaluate { severity_floor := 0, cooldown_seconds := 120, quarantine_on := ["brute_force_suspected"] }
        { cooldown_until_utc := none, quarantine := true } recSev5 corrAllow 0).2.quarantine = true := by
  have h := quarantine_sticky
    { severity_floor := 0, cooldown_seconds := 120, quarantine_on := ["brute_force_suspected"] }
    { cooldown_until_utc := none, quarantine := true } recSev5 corrAllow 0 rfl
  exact ⟨(h.1 (by decide)).1, (h.1 (by decide)).2, h.2⟩

/-- The decision policy on a reasons list of the shape the correlator builds:
case analysis over the four rule outcomes. -/
theorem decisionPolicy_mkReasons (b1 b2 b3 b4 : Bool) :
    (decisionPolicy (mkReasons b1 b2 b3 b4) = .BLOCK ↔
      ("ingest_storm" ∈ mkReasons b1 b2 b3 b4 ∧
       ("brute_force_suspected" ∈ mkReasons b1 b2 b3 b4 ∨
        "password_spray_suspected" ∈ mkReasons b1 b2 b3 b4))) ∧
    (decisionPolicy (mkReasons b1 b2 b3 b4) = .THROTTLE ↔
      (¬("ingest_storm" ∈ mkReasons b1 b2 b3 b4 ∧
         ("brute_force_suspected" ∈ mkReasons b1 b2 b3 b4 ∨
          "password_spray_suspected" ∈ mkReasons b1 b2 b3 b4)) ∧
       mkReasons b1 b2 b3 b4 ≠ [])) ∧
    (decisionPolicy (mkReasons b1 b2 b3 b4) = .ALLOW ↔ mkReasons b1 b2 b3 b4 = []) := by
  cases b1 <;> cases b2 <;> cases b3 <;> cases b4 <;> decide

/-- C3: the correlation decision of an evaluated event is BLOCK iff the final
reason set contains ingest_storm together with brute_force_suspected or
password_spray_suspected; else THROTTLE iff the reason set is non-empty;
else ALLOW (correlator.py lines 124-129). -/
theorem correlation_decision_policy (cfg : CorrelatorConfig) (store : RollingEventStore)
    (record : EventRecord) (wallNow : Int) :
    ((Correlator.evaluate cfg store record wallNow).1.decision = .BLOCK ↔
      ("ingest_storm" ∈ (Correlator.evaluate cfg store record wallNow).1.reasons ∧
       ("brute_force_suspected" ∈ (Correlator.evaluate cfg store record wallNow).1.reasons ∨
        "password_spray_suspected" ∈ (Correlator.evaluate cfg store record wallNow).1.reasons))) ∧
    ((Correlator.evaluate cfg store record wallNow).1.decision = .THROTTLE ↔
      (¬("ingest_storm" ∈ (Correlator.evaluate cfg store record wallNow).1.reasons ∧
         ("brute_force_suspected" ∈ (Correlator.evaluate cfg store record wallNow).1.reasons ∨
          "password_spray_suspected" ∈ (Correlator.evaluate cfg store record wallNow).1.reasons)) ∧
       (Correlator.evaluate cfg store record wallNow).1.reasons ≠ [])) ∧
    ((Correlator.evaluate cfg store record wallNow).1.decision = .ALLOW ↔
      (Correlator.evaluate cfg store record wallNow).1.reasons = []) :=
  decisionPolicy_mkReasons
    (stormFired cfg record ((store.add record).getRecent record.host wallNow).1)
    (bruteFired cfg record ((store.add record).getRecent record.host wallNow).1)
    (sprayFired cfg record ((store.add record).getRecent record.host wallNow).1)
    (successFired cfg record ((store.add record).getRecent record.host wallNow).1)

/-- C8 counterexample: for an event with no src_ip that is not a login
success, neither the password-spray rule nor the success-after-failures
rule writes its diagnostic counters into the context. -/
theorem context_counters_missing :
    recSev0.src_ip = none ∧
    List.lookup "spray_fail_count" (correlateCore {} recSev0 []).context = none ∧
    List.lookup "success_prior_fail_count" (correlateCore {} recSev0 []).context = none := by
  decide

/-- C8 (amended): the storm and brute-force rules write their diagnostic
counters into the context on every evaluation; the password-spray counters
are written whenever the event carries a (non-empty) src_ip, fired or not;
the success-after-failures counters are written whenever the event is an
auth login_success, fired or not. -/
theorem context_diagnostics (cfg : CorrelatorConfig) (record : EventRecord)
    (recent : List EventRecord) :
    ((List.lookup "storm_count" (correlateCore cfg record recent).context).isSome = true) ∧
    ((List.lookup "login_failed_count" (correlateCore cfg record recent).context).isSome = true) ∧
    (pyTruthy record.src_ip = true →
      (List.lookup "spray_fail_count" (correlateCore cfg record recent).context).isSome = true) ∧
    (record.category = "auth" → record.action = "login_success" →
      (List.lookup "success_prior_fail_count" (correlateCore cfg record recent).context).isSome = true) := by
  refine ⟨rfl, rfl, ?_, ?_⟩
  · intro h
    cases hx : record.src_ip with
    | none => rw [hx] at h; cases h
    | some s =>
      rw [hx] at h
      have hs : (s == "") = false := by
        cases he : (s == "") with
        | true => rw [pyTruthy, he] at h; cases h
        | false => rfl
      simp only [correlateCore, correlateContext, hx, hs]
      rfl
  · intro hc ha
    have hguard : ((record.category == "auth") && (record.action == "login_success")) = true := by
      rw [hc, ha]; rfl
    simp only [correlateCore, correlateContext, hguard]
    cases hx : record.src_ip with
    | none => rfl
    | some s =>
      cases hs : (s == "") with
      | true => simp only [hs]; rfl
      | false => simp only [hs]; rfl

/-- A sample auth login_success event with user and src_ip set. -/
def recAuthSuccess : EventRecord :=
  { event_id := "e3", source := "s1", host := "h1", category := "auth",
    action := "login_success", severity := 5, timestamp_utc := 0,
    received_time_utc := 0, user := some "alice", src_ip := some "9.9.9.9" }

/-- Witness for context_diagnostics: an auth login_success event with a
src_ip gets all four rule counters in its context. -/
theorem context_diagnostics_witness :
    (List.lookup "spray_fail_count" (correlateCore {} recAuthSuccess []).context).isSome = true ∧
    (List.lookup "success_prior_fail_count" (correlateCore {} recAuthSuccess []).context).isSome = true :=
  ⟨(context_diagnostics {} recAuthSuccess []).2.2.1 (by decide),
   (context_diagnostics {} recAuthSuccess []).2.2.2 rfl rfl⟩

/-- While a window counter sits at count c below the limit, every further
call inside the window is allowed and the count advances by one per
call. -/
theorem runCalls_within (key : String) (limit : Nat) (w t0 : Int) :
    ∀ (ts : List Int) (c : Nat) (counters : List (String × WindowCounter)),
      counters.lookup key = some ⟨t0, c⟩ →
      (∀ t ∈ ts, t - t0 < w) →
      c + ts.length ≤ limit →
      ∃ m, runCalls key ⟨limit, w, counters⟩ ts =
          (List.replicate ts.length (true, "ok"), ⟨limit, w, m⟩) ∧
        m.lookup key = some ⟨t0, c + ts.length⟩ := by
  intro ts
  induction ts with
  | nil =>
    intro c counters hl _ _
    exact ⟨counters, rfl, by simpa using hl⟩
  | cons t ts ih =>
    intro c counters hl hw hc
    have hnr : ¬(w ≤ t - t0) := not_le.mpr (hw t (by simp))
    have hlt : ¬(limit ≤ c) := by
      simp only [List.length_cons] at hc
      omega
    obtain ⟨m, hrun, hm⟩ := ih (c + 1) (assocSet key ⟨t0, c + 1⟩ counters)
      (lookup_assocSet_self key _ counters)
      (fun t' ht' => hw t' (by simp [ht']))
      (by simp only [List.length_cons] at hc; omega)
    refine ⟨m, ?_, by simpa [Nat.add_assoc, Nat.add_comm 1 ts.length] using hm⟩
    simp only [runCalls, FixedWindowRateLimiter.allow, hl, hnr, hlt, if_false, if_neg hnr,
      if_neg hlt, List.length_cons, List.replicate_succ]
    rw [hrun]

/-- Once the counter is full, further calls inside the window are rejected
with rate_limited and leave the limiter unchanged. -/
theorem allow_full_rejects (key : String) (limit : Nat) (w t0 tb : Int)
    (counters : List (String × WindowCounter))
    (hl : counters.lookup key = some ⟨t0, limit⟩) (hw : tb - t0 < w) :
    FixedWindowRateLimiter.allow ⟨limit, w, counters⟩ key tb =
      ((false, "rate_limited"), ⟨limit, w, counters⟩) := by
  simp [FixedWindowRateLimiter.allow, hl, not_le.mpr hw]

/-- A call at or past the end of the window resets the counter and is
allowed. -/
theorem allow_next_window (key : String) (limit : Nat) (w t0 tn : Int)
    (counters : List (String × WindowCounter))
    (hl : counters.lookup key = some ⟨t0, limit⟩) (hn : w ≤ tn - t0) :
    (FixedWindowRateLimiter.allow ⟨limit, w, counters⟩ key tn).1 = (true, "ok") := by
  simp [FixedWindowRateLimiter.allow, hl, hn]

/-- Running a concatenated schedule of calls is running the two halves in
sequence. -/
theorem runCalls_append (key : String) (rl : FixedWindowRateLimiter) (l1 l2 : List Int) :
    runCalls key rl (l1 ++ l2) =
      ((runCalls key rl l1).1 ++ (runCalls key (runCalls key rl l1).2 l2).1,
       (runCalls key (runCalls key rl l1).2 l2).2) := by
  induction l1 generalizing rl with
  | nil => simp [runCalls]
  | cons t l1 ih => simp [runCalls, ih]

/-- C6: with a fresh fixed-window limiter of limit L, the first L requests
inside one window (the first at t0, then L-1 more) are all allowed, request
L+1 inside the window is rejected with rate_limited, and the first request
of the next window is allowed again. -/
theorem rate_limit_fixed_window (limit : Nat) (w : Int) (key : String) (t0 : Int)
    (ts : List Int) (tb tn : Int)
    (hL : 1 ≤ limit) (hlen : ts.length = limit - 1)
    (hts : ∀ t ∈ ts, t - t0 < w) (htb : tb - t0 < w) (htn : w ≤ tn - t0) :
    (runCalls key ⟨limit, w, []⟩ (t0 :: (ts ++ [tb]))).1 =
      List.replicate limit (true, "ok") ++ [(false, "rate_limited")] ∧
    (((runCalls key ⟨limit, w, []⟩ (t0 :: (ts ++ [tb]))).2.allow key tn).1 = (true, "ok")) := by
  have hfirst : FixedWindowRateLimiter.allow ⟨limit, w, []⟩ key t0 =
      ((true, "ok"), ⟨limit, w, assocSet key ⟨t0, 1⟩ []⟩) := by
    simp [FixedWindowRateLimiter.allow, List.lookup]
  obtain ⟨m, hrun, hm⟩ := runCalls_within key limit w t0 ts 1 (assocSet key ⟨t0, 1⟩ [])
    (lookup_assocSet_self key _ [])
    hts (by omega)
  have hcount : (1 + ts.length) = limit := by omega
  rw [hcount] at hm
  have hsingle : runCalls key ⟨limit, w, m⟩ [tb] = ([(false, "rate_limited")], ⟨limit, w, m⟩) := by
    simp [runCalls, allow_full_rejects key limit w t0 tb m hm htb]
  have hstep : runCalls key ⟨limit, w, []⟩ (t0 :: (ts ++ [tb])) =
      ((true, "ok") :: (runCalls key ⟨limit, w, assocSet key ⟨t0, 1⟩ []⟩ (ts ++ [tb])).1,
       (runCalls key ⟨limit, w, assocSet key ⟨t0, 1⟩ []⟩ (ts ++ [tb])).2) := by
    simp only [runCalls, hfirst]
  have hinner : runCalls key ⟨limit, w, assocSet key ⟨t0, 1⟩ []⟩ (ts ++ [tb]) =
      (List.replicate ts.length (true, "ok") ++ [(false, "rate_limited")], ⟨limit, w, m⟩) := by
    rw [runCalls_append, hrun, hsingle]
  constructor
  · rw [hstep, hinner]
    rw [show limit = ts.length + 1 by omega]
    simp [List.replicate_succ]
  · rw [hstep, hinner]
    exact allow_next_window key limit w t0 tn m hm htn

/-- Witness for rate_limit_fixed_window: limit 2, window 60 s, requests at
0 s and 1 s allowed, the third at 2 s rejected, a request at 60 s allowed
again. -/
theorem rate_limit_fixed_window_witness :
    (runCalls "h1" ⟨2, 60, []⟩ (0 :: ([1] ++ [2]))).1 =
      List.replicate 2 (true, "ok") ++ [(false, "rate_limited")] ∧
    (((runCalls "h1" ⟨2, 60, []⟩ (0 :: ([1] ++ [2]))).2.allow "h1" 60).1 = (true, "ok")) :=
  rate_limit_fixed_window 2 60 "h1" 0 [1] 2 60 (by decide) (by decide) (by decide)
    (by decide) (by decide)

/-- While the deduper's last-emit entry for a key stays at t0, every call
inside the TTL is suppressed and the deduper is unchanged. -/
theorem runEmits_suppressed (rule_id host : String) (user src_ip : Option String) (t0 : Int) :
    ∀ (ts : List Int) (d : AlertDeduper),
      d.last_emit.lookup (dedupeKey rule_id host user src_ip) = some t0 →
      (∀ t ∈ ts, t - t0 < d.ttl_seconds) →
      runEmits rule_id host user src_ip d ts = (List.replicate ts.length false, d) := by
  intro ts
  induction ts with
  | nil => intro d _ _; rfl
  | cons t ts ih =>
    intro d hl hw
    have hn : ¬(d.ttl_seconds ≤ t - t0) := not_le.mpr (hw t (by simp))
    simp only [runEmits, AlertDeduper.shouldEmit, hl, if_neg hn, List.replicate_succ]
    rw [ih d hl (fun t' ht' => hw t' (by simp [ht']))]
    simp [List.replicate_succ]

/-- C7: should_emit returns true and updates the last-emit instant iff there
is no prior emit for the dedupe key or the TTL has elapsed since it, and
leaves the mapping unchanged otherwise; consequently, from a fresh deduper,
N attempts for the same key inside the TTL emit exactly once (the first),
and the first attempt after the TTL elapses emits once more. -/
theorem alert_dedupe_ttl :
    (∀ (d : AlertDeduper) (rule_id host : String) (user src_ip : Option String) (now : Int),
      ((d.shouldEmit rule_id host user src_ip now).1 = true ↔
        (d.last_emit.lookup (dedupeKey rule_id host user src_ip) = none ∨
         ∃ last, d.last_emit.lookup (dedupeKey rule_id host user src_ip) = some last ∧
           d.ttl_seconds ≤ now - last)) ∧
      ((d.shouldEmit rule_id host user src_ip now).1 = true →
        (d.shouldEmit rule_id host user src_ip now).2.last_emit =
          assocSet (dedupeKey rule_id host user src_ip) now d.last_emit) ∧
      ((d.shouldEmit rule_id host user src_ip now).1 = false →
        (d.shouldEmit rule_id host user src_ip now).2 = d)) ∧
    (∀ (ttl : Int) (rule_id host : String) (user src_ip : Option String)
        (t0 : Int) (ts : List Int) (tn : Int),
      (∀ t ∈ ts, t - t0 < ttl) → ttl ≤ tn - t0 →
      (runEmits rule_id host user src_ip ⟨ttl, []⟩ (t0 :: ts)).1 =
        true :: List.replicate ts.length false ∧
      ((runEmits rule_id host user src_ip ⟨ttl, []⟩ (t0 :: ts)).2.shouldEmit
          rule_id host user src_ip tn).1 = true) := by
  constructor
  · intro d rule_id host user src_ip now
    cases hl : d.last_emit.lookup (dedupeKey rule_id host user src_ip) with
    | none =>
      refine ⟨by simp [AlertDeduper.shouldEmit, hl], ?_, ?_⟩
      · intro _
        simp [AlertDeduper.shouldEmit, hl]
      · intro hfalse
        simp [AlertDeduper.shouldEmit, hl] at hfalse
    | some last =>
      by_cases h : d.ttl_seconds ≤ now - last
      · refine ⟨?_, ?_, ?_⟩
        · constructor
          · intro _
            exact Or.inr ⟨last, rfl, h⟩
          · intro _
            simp [AlertDeduper.shouldEmit, hl, if_pos h]
        · intro _
          simp [AlertDeduper.shouldEmit, hl, if_pos h]
        · intro hfalse
          simp [AlertDeduper.shouldEmit, hl, if_pos h] at hfalse
      · refine ⟨?_, ?_, ?_⟩
        · simp only [AlertDeduper.shouldEmit, hl, if_neg h]
          constructor
          · intro hfalse
            cases hfalse
          · rintro (hnone | ⟨last', hl', hle⟩)
            · cases hnone
            · cases hl'
              exact absurd hle h
        · intro htrue
          simp [AlertDeduper.shouldEmit, hl, if_neg h] at htrue
        · intro _
          simp [AlertDeduper.shouldEmit, hl, if_neg h]
  · intro ttl rule_id host user src_ip t0 ts tn hw hn
    have h0 : (⟨ttl, []⟩ : AlertDeduper).shouldEmit rule_id host user src_ip t0 =
        (true, ⟨ttl, assocSet (dedupeKey rule_id host user src_ip) t0 []⟩) := by
      simp [AlertDeduper.shouldEmit, List.lookup]
    have hsup := runEmits_suppressed rule_id host user src_ip t0 ts
      ⟨ttl, assocSet (dedupeKey rule_id host user src_ip) t0 []⟩
      (lookup_assocSet_self _ _ _) hw
    constructor
    · simp only [runEmits, h0, hsup]
    · simp only [runEmits, h0, hsup]
      simp [AlertDeduper.shouldEmit, lookup_assocSet_self, hn]

/-- Witness for alert_dedupe_ttl: with a 300 s TTL, attempts at 0, 10 and
20 s emit only the first; an attempt at 300 s emits again. -/
theorem alert_dedupe_ttl_witness :
    (runEmits "BRUTE_FORCE_V1" "h1" (some "alice") (some "9.9.9.9") ⟨300, []⟩
        (0 :: [10, 20])).1 = true :: List.replicate 2 false ∧
    ((runEmits "BRUTE_FORCE_V1" "h1" (some "alice") (some "9.9.9.9") ⟨300, []⟩
        (0 :: [10, 20])).2.shouldEmit "BRUTE_FORCE_V1" "h1" (some "alice")
        (some "9.9.9.9") 300).1 = true :=
  alert_dedupe_ttl.2 300 "BRUTE_FORCE_V1" "h1" (some "alice") (some "9.9.9.9")
    0 [10, 20] 300 (by decide) (by decide)

/-- A failed verification reports one of the three admission reason codes. -/
theorem verifySignature_fail_reason (c : String) (h : Option String)
    (hf : (verifySignature c h).1 = false) :
    (verifySignature c h).2 = "missing_signature" ∨
    (verifySignature c h).2 = "bad_signature_format" ∨
    (verifySignature c h).2 = "signature_mismatch" := by
  cases h with
  | none => exact Or.inl rfl
  | some s =>
    cases h1 : (s == "") with
    | true => exact Or.inl (by simp [verifySignature, h1])
    | false =>
      cases h2 : s.startsWith "sha256=" with
      | false => exact Or.inr (Or.inl (by simp [verifySignature, h1, h2]))
      | true =>
        cases h3 : ((s.drop 7).trim == c) with
        | true => simp [verifySignature, h1, h2, h3] at hf
        | false => exact Or.inr (Or.inr (by simp [verifySignature, h1, h2, h3]))

/-- C4: when signature verification fails (missing header, bad prefix, or
HMAC mismatch), the request is rejected 401 with one of the three reason
codes, exactly one gateway_reject audit record carrying that reason and the
body hash is appended, and nothing else changes: no idempotency mark
(in-memory or sqlite), no correlator evaluation, no policy, rate-limit,
dedupe or alert activity. -/
theorem ingest_signature_fail (cfg : GatewayConfig)
    (hmacHex : String → String → String) (shaHex : String → String)
    (st : GatewayState) (req : IngestRequest)
    (h : sigHeaderFalsy req.sig_header = true ∨
         (cfg.shared_secret ≠ "" ∧
          (verifySignature (hmacHex cfg.shared_secret req.raw_body) req.sig_header).1 = false)) :
    ∃ reason,
      (reason = "missing_signature" ∨ reason = "bad_signature_format" ∨
       reason = "signature_mismatch") ∧
      (ingest cfg hmacHex shaHex st req).1 = .httpError 401 reason ∧
      (ingest cfg hmacHex shaHex st req).2.idempo = st.idempo ∧
      (ingest cfg hmacHex shaHex st req).2.corrStore = st.corrStore ∧
      (ingest cfg hmacHex shaHex st req).2.hostPolicy = st.hostPolicy ∧
      (ingest cfg hmacHex shaHex st req).2.rateLimiter = st.rateLimiter ∧
      (ingest cfg hmacHex shaHex st req).2.deduper = st.deduper ∧
      (ingest cfg hmacHex shaHex st req).2.alerts = st.alerts ∧
      (ingest cfg hmacHex shaHex st req).2.auditLog =
        st.auditLog ++ [auditReject req.client_ip reason (shaHex req.raw_body) []] := by
  by_cases hf : sigHeaderFalsy req.sig_header = true
  · refine ⟨"missing_signature", Or.inl rfl, ?_⟩
    simp [ingest, hf]
  · rcases h with h1 | ⟨hs, hv⟩
    · exact absurd h1 hf
    · have hf' : sigHeaderFalsy req.sig_header = false := by
        cases hx : sigHeaderFalsy req.sig_header
        · rfl
        · exact absurd hx hf
      have hs' : (cfg.shared_secret == "") = false := beq_eq_false_iff_ne.mpr hs
      refine ⟨(verifySignature (hmacHex cfg.shared_secret req.raw_body) req.sig_header).2,
        verifySignature_fail_reason _ _ hv, ?_⟩
      simp [ingest, hf', hs', hv]

/-- A request whose signature header has a bad prefix. -/
def reqBadSig : IngestRequest :=
  { client_ip := "ip1", raw_body := "body", sig_header := some "zz",
    parsed := .error "invalid_json", now := 0 }

/-- Witness for ingest_signature_fail: a concrete request with a
bad-prefix signature header against an empty gateway state. -/
theorem ingest_signature_fail_witness :
    ∃ reason,
      (reason = "missing_signature" ∨ reason = "bad_signature_format" ∨
       reason = "signature_mismatch") ∧
      (ingest { shared_secret := "k" } (fun _ _ => "aa") (fun _ => "bh") emptyState reqBadSig).1 =
        .httpError 401 reason ∧
      (ingest { shared_secret := "k" } (fun _ _ => "aa") (fun _ => "bh") emptyState reqBadSig).2.idempo = emptyState.idempo ∧
      (ingest { shared_secret := "k" } (fun _ _ => "aa") (fun _ => "bh") emptyState reqBadSig).2.corrStore = emptyState.corrStore ∧
      (ingest { shared_secret := "k" } (fun _ _ => "aa") (fun _ => "bh") emptyState reqBadSig).2.hostPolicy = emptyState.hostPolicy ∧
      (ingest { shared_secret := "k" } (fun _ _ => "aa") (fun _ => "bh") emptyState reqBadSig).2.rateLimiter = emptyState.rateLimiter ∧
      (ingest { shared_secret := "k" } (fun _ _ => "aa") (fun _ => "bh") emptyState reqBadSig).2.deduper = emptyState.deduper ∧
      (ingest { shared_secret := "k" } (fun _ _ => "aa") (fun _ => "bh") emptyState reqBadSig).2.alerts = emptyState.alerts ∧
      (ingest { shared_secret := "k" } (fun _ _ => "aa") (fun _ => "bh") emptyState reqBadSig).2.auditLog =
        emptyState.auditLog ++
          [auditReject reqBadSig.client_ip reason ((fun _ => "bh") reqBadSig.raw_body) []] :=
  ingest_signature_fail { shared_secret := "k" } (fun _ _ => "aa") (fun _ => "bh")
    emptyState reqBadSig (Or.inr ⟨by decide, by decide⟩)

/-- A request carrying no signature header at all. -/
def reqNoHeader : IngestRequest :=
  { client_ip := "ip1", raw_body := "body", sig_header := none,
    parsed := .error "invalid_json", now := 0 }

/-- C9 counterexample: with the shared secret empty, a request with no
signature header is answered 401 missing_signature, not 500: the header
check runs before the secret is consulted. -/
theorem missing_secret_no_header_is_401 :
    ({ shared_secret := "" } : GatewayConfig).shared_secret = "" ∧
    (ingest { shared_secret := "" } (fun _ _ => "aa") (fun _ => "bh") emptyState reqNoHeader).1 =
      .httpError 401 "missing_signature" := by
  decide

/-- C9 (amended): every request that carries a non-empty signature header
while the shared secret is unset or empty is answered with the 500
server-fatal error, and the gateway state is left completely unchanged. -/
theorem missing_secret_500 (cfg : GatewayConfig)
    (hmacHex : String → String → String) (shaHex : String → String)
    (st : GatewayState) (req : IngestRequest)
    (hh : sigHeaderFalsy req.sig_header = false) (hsec : cfg.shared_secret = "") :
    ingest cfg hmacHex shaHex st req =
      (.httpError 500 "ARES_SHARED_SECRET is not set", st) := by
  simp [ingest, hh, hsec]

/-- A request carrying a well-formed signature header. -/
def reqWithHeader : IngestRequest :=
  { client_ip := "ip1", raw_body := "body", sig_header := some "sha256=aa",
    parsed := .error "invalid_json", now := 0 }

/-- Witness for missing_secret_500: a concrete request with a signature
header and the empty secret. -/
theorem missing_secret_500_witness :
    ingest { shared_secret := "" } (fun _ _ => "aa") (fun _ => "bh") emptyState reqWithHeader =
      (.httpError 500 "ARES_SHARED_SECRET is not set", emptyState) :=
  missing_secret_500 { shared_secret := "" } (fun _ _ => "aa") (fun _ => "bh")
    emptyState reqWithHeader (by decide) rfl

end SecCorr
